import Mathlib

/-!
Verification of the WebSocket interception core (mock-rule.ts and
passthrough-handling-definitions.ts): a shallow embedding of the frame pipe,
the pass-through header preparation, the reject handler, the rejection
mirroring, and the rule bookkeeping, with theorems checking the spec claims.
-/

namespace Mockttp

/-! ## Frame Pipe: close-code validation and close-frame forwarding -/

/-- Embedding of `isValidStatusCode` (mock-rule.ts lines 177-187): a close
code is valid when it is a standard code in 1000..1014 other than
1004/1005/1006, or an application-specific code in 3000..4999. -/
def isValidStatusCode (code : Nat) : Bool :=
  (decide (1000 ≤ code) && decide (code ≤ 1014) &&
    code != 1004 && code != 1005 && code != 1006) ||
  (decide (3000 ≤ code) && decide (code ≤ 4999))

/-- The action `pipeWebSocket` performs on the outbound endpoint when a close
frame arrives: either a `close(code, reason)` call or a bare `close()`. -/
inductive CloseForward where
  | closeWith (code : Nat) (reason : String)
  | bareClose
deriving DecidableEq

/-- Embedding of the `close` listener in `pipeWebSocket` (mock-rule.ts lines
205-216): a valid status code is forwarded with the reason via
`outSocket.close(num, reason)` (falling back to a bare `outSocket.close()`
when that call throws, modelled by `closeThrows`); an invalid status code is
forwarded as a bare `outSocket.close()`. -/
def onCloseFrame (num : Nat) (reason : String) (closeThrows : Bool) : CloseForward :=
  if isValidStatusCode num then
    if closeThrows then CloseForward.bareClose
    else CloseForward.closeWith num reason
  else CloseForward.bareClose

/-- Claim C1: for every close frame received on endpoint A with status code
`c` and reason `r`: if `c` is in [1000,1014] excluding 1004/1005/1006, or in
[3000,4999], the pipe forwards `close(c, r)` to endpoint B (falling back to a
bare `close()` if that call throws); for every other `c` it forwards a bare
`close()` with no code. -/
theorem c1_close_code_forwarding (c : Nat) (r : String) (closeThrows : Bool) :
    onCloseFrame c r closeThrows =
      if (1000 ≤ c ∧ c ≤ 1014 ∧ c ≠ 1004 ∧ c ≠ 1005 ∧ c ≠ 1006) ∨
         (3000 ≤ c ∧ c ≤ 4999) then
        (if closeThrows then CloseForward.bareClose else CloseForward.closeWith c r)
      else CloseForward.bareClose := by
  have hvalid : isValidStatusCode c = true ↔
      ((1000 ≤ c ∧ c ≤ 1014 ∧ c ≠ 1004 ∧ c ≠ 1005 ∧ c ≠ 1006) ∨
       (3000 ≤ c ∧ c ≤ 4999)) := by
    simp [isValidStatusCode, and_assoc]
  by_cases h : (1000 ≤ c ∧ c ≤ 1014 ∧ c ≠ 1004 ∧ c ≠ 1005 ∧ c ≠ 1006) ∨
      (3000 ≤ c ∧ c ≤ 4999)
  · rw [if_pos h]
    unfold onCloseFrame
    rw [if_pos (hvalid.mpr h)]
  · rw [if_neg h]
    unfold onCloseFrame
    rw [if_neg (fun hb => h (hvalid.mp hb))]

/-! ## Frame Pipe: transport-error handling -/

/-- The literal part of `INVALID_STATUS_REGEX` (mock-rule.ts line 189),
preceding the captured digit group. -/
def invalidStatusPrefix : String := "Invalid WebSocket frame: invalid status code "

/-- The greedy digit capture `(\d+)`: the longest leading run of digits. -/
def takeDigits : List Char → List Char
  | [] => []
  | c :: cs => if c.isDigit then c :: takeDigits cs else []

/-- `parseInt` on a (non-empty) decimal digit string. -/
def digitsToNat (ds : List Char) : Nat :=
  ds.foldl (fun acc c => acc * 10 + (c.toNat - 48)) 0

/-- Regex search for `INVALID_STATUS_REGEX` over a message: at each position,
try to match the literal prefix followed by at least one digit; on success
return the captured number, otherwise continue at the next position. -/
def scanInvalidStatus : List Char → Option Nat
  | [] => none
  | s@(_ :: rest) =>
    if invalidStatusPrefix.data.isPrefixOf s then
      let ds := takeDigits (s.drop invalidStatusPrefix.data.length)
      if ds.isEmpty then scanInvalidStatus rest
      else some (digitsToNat ds)
    else scanInvalidStatus rest

/-- Operations the `error` listener of `pipeWebSocket` can perform:
`closeInbound` is `inSocket.close()` (never performed by this listener; it is
performed by the send-failure callback `onPipeFailed` instead),
`sendRawCloseFrame` is the raw close frame synthesized through the ws sender
internals, and `destroyRawOutbound` is `rawOutSocket._socket.destroy()`. -/
inductive PipeErrOp where
  | closeInbound
  | sendRawCloseFrame (status : Nat)
  | destroyRawOutbound
deriving DecidableEq

/-- Embedding of the `error` listener in `pipeWebSocket` (mock-rule.ts lines
228-253): if the error message matches the invalid-close-status diagnostic, a
raw close frame carrying the parsed status is sent on the outbound socket and
then its raw socket is destroyed; otherwise the raw socket is destroyed with
no close frame. The listener performs no operation on the inbound socket. -/
def onWsError (message : String) : List PipeErrOp :=
  match scanInvalidStatus message.data with
  | some status => [PipeErrOp.sendRawCloseFrame status, PipeErrOp.destroyRawOutbound]
  | none => [PipeErrOp.destroyRawOutbound]

/-! ## Raw HTTP responses: reject handler and rejection mirroring -/

/-- Operations a handler performs on the downstream raw socket. `wsHandshake`
stands for completing the WebSocket upgrade (the Upgrade Acceptor); handlers
that refuse the upgrade never emit it. -/
inductive SocketOp where
  | write (data : String)
  | wsHandshake
  | destroy
deriving DecidableEq

/-- Embedding of `rawResponse` (mock-rule.ts lines 271-280): the HTTP/1.1
status line, the headers each as `name: value` joined by CRLF, and a
terminating CRLF CRLF. -/
def rawResponse (statusCode : Nat) (statusMessage : String)
    (headers : List (String × String)) : String :=
  "HTTP/1.1 " ++ toString statusCode ++ " " ++ statusMessage ++ "\x0d\x0a" ++
  String.intercalate "\x0d\x0a" (headers.map (fun h => h.1 ++ ": " ++ h.2)) ++
  "\x0d\x0a\x0d\x0a"

/-- The bytes written over a sequence of socket operations, in order. -/
def writtenBytes : List SocketOp → String
  | [] => ""
  | SocketOp.write s :: rest => s ++ writtenBytes rest
  | _ :: rest => writtenBytes rest

/-- JavaScript truthiness of the optional `body` configuration: the body is
written only when present and non-empty. -/
def jsBodyString : Option String → String
  | some b => if b == "" then "" else b
  | none => ""

/-- Embedding of `RejectWebSocketHandler.handle` (mock-rule.ts lines 557-562):
write the raw response, write the body when truthy, write a trailing CRLF,
destroy the socket. No WebSocket handshake is performed. -/
def rejectHandle (statusCode : Nat) (statusMessage : String)
    (headers : List (String × String)) (body : Option String) : List SocketOp :=
  [SocketOp.write (rawResponse statusCode statusMessage headers)] ++
  (match body with
   | some b => if b == "" then [] else [SocketOp.write b]
   | none => []) ++
  [SocketOp.write "\x0d\x0a", SocketOp.destroy]

/-- JavaScript `x || d` on an optional number (`0` is falsy). -/
def jsOrNat : Option Nat → Nat → Nat
  | some n, d => if n == 0 then d else n
  | none, d => d

/-- JavaScript `x || d` on an optional string (`""` is falsy). -/
def jsOrString : Option String → String → String
  | some s, d => if s == "" then d else s
  | none, d => d

/-- Embedding of `mirrorRejection` (mock-rule.ts lines 256-269): when the
downstream socket is writable, write the upstream rejection's status line and
headers (with 500 / "Unknown error" standing in for falsy fields), then write
its body if the socket is still writable afterwards; destroy the socket in
every case. `writableAtStart`/`writableAfterBody` model the two
`socket.writable` tests around the awaited body read. -/
def mirrorRejection (writableAtStart writableAfterBody : Bool)
    (statusCode : Option Nat) (statusMessage : Option String)
    (rawHeaders : List (String × String)) (body : String) : List SocketOp :=
  (if writableAtStart then
    [SocketOp.write (rawResponse (jsOrNat statusCode 500)
        (jsOrString statusMessage "Unknown error") rawHeaders)] ++
    (if writableAfterBody then [SocketOp.write body] else [])
   else []) ++ [SocketOp.destroy]

/-! ## Pass-through: upstream header preparation -/

/-- ASCII lowercasing of one character, as `String.prototype.toLowerCase`
behaves on the ASCII header names and hostnames handled here. -/
def charToLower (c : Char) : Char :=
  if c.isUpper then Char.ofNat (c.toNat + 32) else c

/-- `toLowerCase()` over a whole string (ASCII). -/
def strToLower (s : String) : String :=
  ⟨s.data.map charToLower⟩

/-- `startsWith`: is `p` a prefix of `s`? -/
def strStartsWith (s p : String) : Bool :=
  p.data.isPrefixOf s.data

/-- The header filter used for the upstream WebSocket options (mock-rule.ts
lines 455-459): drop any header whose name, lowercased, starts with
`sec-websocket` or equals `connection` or `upgrade`. -/
def shouldStripWsHeader (headerName : String) : Bool :=
  strStartsWith (strToLower headerName) "sec-websocket" ||
  strToLower headerName == "connection" ||
  strToLower headerName == "upgrade"

/-- Embedding of the headers passed to the upstream `WebSocket` constructor in
`connectUpstream` (`_.omitBy` over the request's headers). The conversion
`rawHeadersToObjectPreservingCase` is modelled from the spec ("Prepare
outbound headers from the original request's raw headers, preserving case")
as preserving the name/value pairs. -/
def upstreamWsHeaders (raw : List (String × String)) : List (String × String) :=
  raw.filter (fun h => !(shouldStripWsHeader h.1))

/-! ## Pass-through: localhost rewrite and Host-header forwarding policy -/

/-- Modelled from the spec: `isLocalhostAddress` (util/socket-util, not under
src/) recognizes loopback addresses — `localhost`, the IPv6 loopback `::1`,
and IPv4 `127.*` addresses. -/
def isLocalhostAddress (host : String) : Bool :=
  host == "localhost" || host == "::1" || strStartsWith host "127."

/-- Truthiness of an optional loopback test (a missing hostname is not a
loopback address). -/
def optIsLocalhost : Option String → Bool
  | some h => isLocalhostAddress h
  | none => false

/-- JavaScript truthiness of an optional string. -/
def optTruthy : Option String → Bool
  | some s => !(s == "")
  | none => false

/-- Embedding of the localhost-rewrite step of
`PassThroughWebSocketHandler.handle` (mock-rule.ts lines 348-355): when the
parsed target hostname is a loopback address and the request carries a
non-loopback `remoteIpAddress`, the target hostname becomes the remote
address; the raw headers are not touched by this step. Returns the resulting
(hostname, raw headers) pair. -/
def applyLocalhostRewrite (hostname remoteIpAddress : Option String)
    (rawHeaders : List (String × String)) :
    Option String × List (String × String) :=
  if optIsLocalhost hostname && optTruthy remoteIpAddress &&
      !(optIsLocalhost remoteIpAddress) then
    (remoteIpAddress, rawHeaders)
  else
    (hostname, rawHeaders)

/-- The `updateHostHeader` forwarding option (`true | false | string`,
optional, so possibly absent). -/
inductive UpdateHostHeader where
  | undef
  | tru
  | fls
  | str (s : String)
deriving DecidableEq

/-- JavaScript `(port ? ":" + port : "")`: the port suffix of the rewritten
Host value, empty for an absent or empty port. -/
def jsPortSuffix : Option String → String
  | some p => if p == "" then "" else ":" ++ p
  | none => ""

/-- Modelled from the spec: `findRawHeader` (util/header-utils, not under
src/) finds the first raw header whose lowercased name equals the given
(lowercase) name; here, its presence test. -/
def hasRawHeader (raw : List (String × String)) (name : String) : Bool :=
  raw.any (fun h => strToLower h.1 == name)

/-- The value of the first raw header matching `name` (lowercased compare). -/
def getFirstHeaderValue : List (String × String) → String → Option String
  | [], _ => none
  | (k, v) :: rest, name =>
    if strToLower k == name then some v else getFirstHeaderValue rest name

/-- In-place mutation `hostHeader[1] = newValue` of the header found by
`findRawHeader`: replace the value of the first name-matching pair. -/
def setFirstHeaderValue : List (String × String) → String → String →
    List (String × String)
  | [], _, _ => []
  | (k, v) :: rest, name, newValue =>
    if strToLower k == name then (k, newValue) :: rest
    else (k, v) :: setFirstHeaderValue rest name newValue

/-- The `if (!hostHeader) { ... rawHeaders.unshift(hostHeader) }` step
(mock-rule.ts lines 373-378): when no Host/`:authority` header exists, one is
inserted at the front with the new target hostname as its value. -/
def ensureHostHeader (raw : List (String × String)) (name hostname : String) :
    List (String × String) :=
  if hasRawHeader raw name then raw else (name, hostname) :: raw

/-- Embedding of the Host-header update of the forwarding branch
(mock-rule.ts lines 372-386): ensure a Host/`:authority` header exists, then
if `updateHostHeader` is `undefined` or `true` set it to the new target
(`hostname` plus a `:port` suffix when the port is truthy); else if
`updateHostHeader` is truthy (a non-empty string) set it to that literal
value; otherwise (`false` or the empty string) leave it untouched. -/
def updateForwardedHostHeader (raw : List (String × String))
    (hostHeaderName hostname : String) (port : Option String)
    (updateHostHeader : UpdateHostHeader) : List (String × String) :=
  let raw1 := ensureHostHeader raw hostHeaderName hostname
  match updateHostHeader with
  | UpdateHostHeader.undef =>
      setFirstHeaderValue raw1 hostHeaderName (hostname ++ jsPortSuffix port)
  | UpdateHostHeader.tru =>
      setFirstHeaderValue raw1 hostHeaderName (hostname ++ jsPortSuffix port)
  | UpdateHostHeader.str s =>
      if s == "" then raw1 else setFirstHeaderValue raw1 hostHeaderName s
  | UpdateHostHeader.fls => raw1

/-! ## Rule binding: request counting, recording, completion -/

/-- One `handle(request, response, record)` invocation on a rule: the `record`
flag and the eventual outcome of the handler's future (`true` for success).
The stored record entry is the future created by this invocation, pushed
while still pending. -/
structure HandleCall where
  record : Bool
  outcome : Bool
deriving DecidableEq

/-- The mutable bookkeeping state of a `MockRule`: the request counter and the
list of recorded exchange futures. -/
structure MockRuleState where
  requestCount : Nat
  requests : List HandleCall
deriving DecidableEq

/-- A freshly constructed rule: counter zero, no records
(mock-rule.ts lines 41-42). -/
def initialRuleState : MockRuleState :=
  { requestCount := 0, requests := [] }

/-- Embedding of the bookkeeping of `MockRule.handle` (mock-rule.ts lines
57-74): the pending completion future is pushed onto `requests` when `record`
is set, and `requestCount` is incremented unconditionally, regardless of the
future's eventual outcome. -/
def MockRule.handle (s : MockRuleState) (call : HandleCall) : MockRuleState :=
  { requestCount := s.requestCount + 1,
    requests := if call.record then s.requests ++ [call] else s.requests }

/-- A finite sequence of `handle` invocations, in dispatch order. -/
def MockRule.handleAll (s : MockRuleState) (calls : List HandleCall) : MockRuleState :=
  calls.foldl MockRule.handle s

/-- The JavaScript value returned by `MockRule.isComplete`: a boolean, `null`,
or `undefined` (distinguished, as they are distinct JavaScript values). -/
inductive CompletionResult where
  | bool (b : Bool)
  | null
  | undefined
deriving DecidableEq

/-- Embedding of `MockRule.isComplete` (mock-rule.ts lines 76-82): when a
completion checker is configured, return the checker applied to the current
request count; otherwise return `null`. -/
def MockRule.isComplete (completionChecker : Option (Nat → Bool))
    (requestCount : Nat) : CompletionResult :=
  match completionChecker with
  | some checker => CompletionResult.bool (checker requestCount)
  | none => CompletionResult.null

/-! ## Rule bookkeeping lemmas -/

theorem handleAll_cons (s : MockRuleState) (c : HandleCall) (cs : List HandleCall) :
    MockRule.handleAll s (c :: cs) = MockRule.handleAll (MockRule.handle s c) cs := rfl

theorem handleAll_requestCount (s : MockRuleState) (calls : List HandleCall) :
    (MockRule.handleAll s calls).requestCount = s.requestCount + calls.length := by
  induction calls generalizing s with
  | nil => simp [MockRule.handleAll]
  | cons c cs ih =>
    rw [handleAll_cons, ih]
    simp [MockRule.handle]
    omega

theorem handleAll_requests (s : MockRuleState) (calls : List HandleCall) :
    (MockRule.handleAll s calls).requests
      = s.requests ++ calls.filter (fun c => c.record) := by
  induction calls generalizing s with
  | nil => simp [MockRule.handleAll]
  | cons c cs ih =>
    rw [handleAll_cons, ih]
    cases hc : c.record <;> simp [MockRule.handle, hc, List.filter_cons]

/-- Claim C2: for every rule and every finite sequence of `handle` invocations
on it, the rule's `requestCount` equals the number of invocations, regardless
of the `record` flag and of whether each handler future succeeds or fails; the
counter starts at zero. -/
theorem c2_request_count (calls : List HandleCall) :
    (MockRule.handleAll initialRuleState calls).requestCount = calls.length ∧
    initialRuleState.requestCount = 0 := by
  refine ⟨?_, rfl⟩
  rw [handleAll_requestCount]
  simp [initialRuleState]

/-- Claim C3: a `handle` invocation with `record = true` appends exactly one
entry (the pending completion future of that invocation) to the records list,
and with `record = false` the records list does not grow; over a sequence of
invocations the recorded entries are exactly the recorded invocations in
dispatch order. -/
theorem c3_record_growth :
    (∀ (s : MockRuleState) (call : HandleCall),
        (MockRule.handle s call).requests
          = if call.record then s.requests ++ [call] else s.requests) ∧
    (∀ calls : List HandleCall,
        (MockRule.handleAll initialRuleState calls).requests
          = calls.filter (fun c => c.record)) := by
  constructor
  · intro s call
    rfl
  · intro calls
    rw [handleAll_requests]
    simp [initialRuleState]

/-! ## Frame Pipe error-handling theorems -/

/-- Claim C4 (amended): on a transport error on endpoint A, the pipe's error
listener performs no close on A itself; if the error message matches the
vendor diagnostic `Invalid WebSocket frame: invalid status code <n>`, a close
frame carrying exactly status `n` is sent on endpoint B and then B's raw
socket is destroyed; for any other error, B's raw socket is destroyed with no
close frame. -/
theorem c4_error_propagation (message : String) :
    (∀ n, scanInvalidStatus message.data = some n →
        onWsError message
          = [PipeErrOp.sendRawCloseFrame n, PipeErrOp.destroyRawOutbound]) ∧
    (scanInvalidStatus message.data = none →
        onWsError message = [PipeErrOp.destroyRawOutbound]) ∧
    PipeErrOp.closeInbound ∉ onWsError message := by
  refine ⟨?_, ?_, ?_⟩
  · intro n h
    simp [onWsError, h]
  · intro h
    simp [onWsError, h]
  · unfold onWsError
    cases scanInvalidStatus message.data <;> simp

/-- Witness for C4: the vendor diagnostic for invalid close code 999 produces
exactly a close frame with status 999 followed by raw-socket destruction. -/
theorem c4_error_propagation_witness :
    onWsError "Invalid WebSocket frame: invalid status code 999"
      = [PipeErrOp.sendRawCloseFrame 999, PipeErrOp.destroyRawOutbound] :=
  (c4_error_propagation "Invalid WebSocket frame: invalid status code 999").1
    999 (by decide)

/-- Counterexample to C4 as stated: on the transport error "Connection reset"
the pipe's error listener destroys B's raw socket but performs no close on
endpoint A, so "endpoint A is closed" does not hold of this code path. -/
theorem c4_counterexample :
    onWsError "Connection reset" = [PipeErrOp.destroyRawOutbound] ∧
    PipeErrOp.closeInbound ∉ onWsError "Connection reset" := by
  constructor
  · decide
  · decide

/-! ## Upstream header theorems -/

/-- Claim C5: the header set sent to the upstream is the request's raw headers
with every header whose name case-insensitively starts with `sec-websocket`
or equals `connection` or `upgrade` removed; all other headers pass through
unchanged (same name, same value, same order), preserving their case. The
Host rewrite, when forwarding dictates one, is applied to the raw headers
before this step (see the forwarding theorems). -/
theorem c5_upstream_headers (raw : List (String × String)) :
    List.Sublist (upstreamWsHeaders raw) raw ∧
    (∀ name value, (name, value) ∈ upstreamWsHeaders raw ↔
        ((name, value) ∈ raw ∧ shouldStripWsHeader name = false)) := by
  constructor
  · exact List.filter_sublist raw
  · intro name value
    simp [upstreamWsHeaders, List.mem_filter]

/-- Witness for C5 on a concrete header list: the custom header survives
unchanged and the `Connection` header is stripped. -/
theorem c5_upstream_headers_witness :
    (("X-Custom", "v") ∈ upstreamWsHeaders
        [("Host", "example.com"), ("Connection", "Upgrade"),
         ("Sec-WebSocket-Key", "abc"), ("X-Custom", "v")]) ∧
    ("Connection", "Upgrade") ∉ upstreamWsHeaders
        [("Host", "example.com"), ("Connection", "Upgrade"),
         ("Sec-WebSocket-Key", "abc"), ("X-Custom", "v")] := by
  constructor
  · exact ((c5_upstream_headers
        [("Host", "example.com"), ("Connection", "Upgrade"),
         ("Sec-WebSocket-Key", "abc"), ("X-Custom", "v")]).2 "X-Custom" "v").mpr
      (by decide)
  · intro hmem
    have h := ((c5_upstream_headers
        [("Host", "example.com"), ("Connection", "Upgrade"),
         ("Sec-WebSocket-Key", "abc"), ("X-Custom", "v")]).2 "Connection" "Upgrade").mp hmem
    exact absurd h.2 (by decide)

/-! ## Host-header forwarding lemmas and theorems -/

theorem hasRawHeader_getFirst (raw : List (String × String)) (name : String)
    (h : hasRawHeader raw name = true) : getFirstHeaderValue raw name ≠ none := by
  induction raw with
  | nil => simp [hasRawHeader] at h
  | cons p rest ih =>
    obtain ⟨k, v⟩ := p
    cases hk : (strToLower k == name) with
    | true => simp [getFirstHeaderValue, hk]
    | false =>
      have hrest : hasRawHeader rest name = true := by
        simpa [hasRawHeader, hk] using h
      simpa [getFirstHeaderValue, hk] using ih hrest

theorem getFirst_ensure (raw : List (String × String)) (name hostname : String)
    (hname : strToLower name = name) :
    getFirstHeaderValue (ensureHostHeader raw name hostname) name ≠ none := by
  unfold ensureHostHeader
  cases hh : hasRawHeader raw name with
  | true => simpa using hasRawHeader_getFirst raw name hh
  | false => simp [getFirstHeaderValue, hname]

theorem getFirst_setFirst (l : List (String × String)) (name v : String)
    (h : getFirstHeaderValue l name ≠ none) :
    getFirstHeaderValue (setFirstHeaderValue l name v) name = some v := by
  induction l with
  | nil => simp [getFirstHeaderValue] at h
  | cons p rest ih =>
    obtain ⟨k, v0⟩ := p
    cases hk : (strToLower k == name) with
    | true => simp [getFirstHeaderValue, setFirstHeaderValue, hk]
    | false =>
      have hrest : getFirstHeaderValue rest name ≠ none := by
        simpa [getFirstHeaderValue, hk] using h
      simpa [getFirstHeaderValue, setFirstHeaderValue, hk] using ih hrest

/-- Claim C6 (amended): with forwarding configured, if `updateHostHeader` is
`true` or absent the Host/`:authority` header is set to the new target
hostname with a `:port` suffix when the port is truthy; if it is a non-empty
string, the header is set to exactly that string; if it is `false` or the
empty string, the header is left untouched; and when no such header exists
one is inserted (at the front, valued with the new hostname). -/
theorem c6_update_host_header (raw : List (String × String))
    (name hostname : String) (port : Option String)
    (hname : strToLower name = name) :
    (∀ u, (u = UpdateHostHeader.undef ∨ u = UpdateHostHeader.tru) →
        getFirstHeaderValue (updateForwardedHostHeader raw name hostname port u) name
          = some (hostname ++ jsPortSuffix port)) ∧
    (∀ s, s ≠ "" →
        getFirstHeaderValue
            (updateForwardedHostHeader raw name hostname port (UpdateHostHeader.str s))
            name
          = some s) ∧
    (updateForwardedHostHeader raw name hostname port (UpdateHostHeader.str "")
        = ensureHostHeader raw name hostname) ∧
    (updateForwardedHostHeader raw name hostname port UpdateHostHeader.fls
        = ensureHostHeader raw name hostname) ∧
    (hasRawHeader raw name = true → ensureHostHeader raw name hostname = raw) ∧
    (hasRawHeader raw name = false →
        ensureHostHeader raw name hostname = (name, hostname) :: raw) := by
  refine ⟨?_, ?_, ?_, ?_, ?_, ?_⟩
  · rintro u (rfl | rfl) <;>
      exact getFirst_setFirst _ name _ (getFirst_ensure raw name hostname hname)
  · intro s hs
    have hb : (s == "") = false := by simpa using hs
    show getFirstHeaderValue
        (if s == "" then ensureHostHeader raw name hostname
         else setFirstHeaderValue (ensureHostHeader raw name hostname) name s) name
      = some s
    rw [hb]
    simp only [Bool.false_eq_true, if_false]
    exact getFirst_setFirst _ name _ (getFirst_ensure raw name hostname hname)
  · simp [updateForwardedHostHeader]
  · rfl
  · intro h
    simp [ensureHostHeader, h]
  · intro h
    simp [ensureHostHeader, h]

/-- Witness for C6: with a `Host: client.local` header, `updateHostHeader`
absent rewrites to `example.com:8080`, and the literal string `other.host`
is installed verbatim. -/
theorem c6_update_host_header_witness :
    getFirstHeaderValue
        (updateForwardedHostHeader [("Host", "client.local")] "host" "example.com"
          (some "8080") UpdateHostHeader.undef) "host" = some "example.com:8080" ∧
    getFirstHeaderValue
        (updateForwardedHostHeader [("Host", "client.local")] "host" "example.com"
          none (UpdateHostHeader.str "other.host")) "host" = some "other.host" := by
  constructor
  · exact (c6_update_host_header [("Host", "client.local")] "host" "example.com"
      (some "8080") (by decide)).1 UpdateHostHeader.undef (Or.inl rfl)
  · exact (c6_update_host_header [("Host", "client.local")] "host" "example.com"
      none (by decide)).2.1 "other.host" (by decide)

/-- Counterexample to C6 as stated: `updateHostHeader` set to the empty
string is a string, yet the Host header is left untouched rather than set to
that string (JavaScript truthiness sends `""` to the leave-alone branch). -/
theorem c6_counterexample :
    updateForwardedHostHeader [("Host", "client.local")] "host" "example.com" none
        (UpdateHostHeader.str "") = [("Host", "client.local")] ∧
    getFirstHeaderValue
        (updateForwardedHostHeader [("Host", "client.local")] "host" "example.com" none
          (UpdateHostHeader.str "")) "host" ≠ some "" := by
  constructor
  · decide
  · decide

/-! ## Localhost rewrite theorem -/

/-- Claim C7: when the parsed target hostname is a loopback address and the
request's `remoteIpAddress` is present and not a loopback address, the
upstream target hostname becomes the remote address, and the raw headers
(hence the Host header) are not modified by this substitution. -/
theorem c7_localhost_rewrite (hostname remote : String)
    (raw : List (String × String))
    (hloc : isLocalhostAddress hostname = true) (hremote : remote ≠ "")
    (hremoteloc : isLocalhostAddress remote = false) :
    applyLocalhostRewrite (some hostname) (some remote) raw = (some remote, raw) := by
  have ht : optTruthy (some remote) = true := by
    simp [optTruthy, hremote]
  simp [applyLocalhostRewrite, optIsLocalhost, hloc, ht, hremoteloc]

/-- Witness for C7, the spec's scenario 5: target `localhost` with remote
`10.0.0.5` is rewritten to `10.0.0.5` while the Host header stays
`localhost`. -/
theorem c7_localhost_rewrite_witness :
    applyLocalhostRewrite (some "localhost") (some "10.0.0.5")
        [("host", "localhost")] = (some "10.0.0.5", [("host", "localhost")]) :=
  c7_localhost_rewrite "localhost" "10.0.0.5" [("host", "localhost")]
    (by decide) (by decide) (by decide)

/-! ## Reject handler theorem -/

/-- Claim C8: the Reject handler writes exactly the HTTP/1.1 status line ending
in CRLF, the headers as `name: value` joined by CRLF, a terminating CRLF CRLF,
the body verbatim when truthy, and a trailing CRLF, then destroys the socket;
no WebSocket handshake is performed. In particular the teapot configuration
produces exactly the expected bytes. -/
theorem c8_reject_bytes (statusCode : Nat) (statusMessage : String)
    (headers : List (String × String)) (body : Option String) :
    writtenBytes (rejectHandle statusCode statusMessage headers body)
      = rawResponse statusCode statusMessage headers ++ jsBodyString body ++ "\x0d\x0a" ∧
    (rejectHandle statusCode statusMessage headers body).getLast? = some SocketOp.destroy ∧
    SocketOp.wsHandshake ∉ rejectHandle statusCode statusMessage headers body ∧
    writtenBytes (rejectHandle 418 "I\x27m a teapot" [("X-Foo", "bar")] (some "nope"))
      = "HTTP/1.1 418 I\x27m a teapot\x0d\x0aX-Foo: bar\x0d\x0a\x0d\x0anope\x0d\x0a" := by
  refine ⟨?_, ?_, ?_, by rfl⟩
  · cases body with
    | none =>
      simp [rejectHandle, writtenBytes, jsBodyString]
    | some b =>
      cases hb : (b == "") with
      | true =>
        have hb' : b = "" := by simpa using hb
        subst hb'
        simp [rejectHandle, writtenBytes, jsBodyString]
      | false =>
        simp [rejectHandle, writtenBytes, jsBodyString, hb, String.append_assoc]
  · cases body with
    | none => rfl
    | some b =>
      cases hb : (b == "") with
      | true => simp [rejectHandle, hb]
      | false => simp [rejectHandle, hb]
  · cases body with
    | none => simp [rejectHandle]
    | some b =>
      cases hb : (b == "") with
      | true => simp [rejectHandle, hb]
      | false => simp [rejectHandle, hb]

/-! ## Completion theorem -/

/-- Claim C9 (amended): `isComplete` returns `null` when no completion
predicate is configured, and otherwise returns the result of applying the
configured predicate to the rule's current request counter. -/
theorem c9_is_complete (completionChecker : Option (Nat → Bool)) (count : Nat) :
    (completionChecker = none →
        MockRule.isComplete completionChecker count = CompletionResult.null) ∧
    (∀ checker, completionChecker = some checker →
        MockRule.isComplete completionChecker count
          = CompletionResult.bool (checker count)) := by
  constructor
  · rintro rfl
    rfl
  · rintro checker rfl
    rfl

/-- Witness for C9: a rule whose predicate asks for at least two requests is
complete at counter 3, and a rule with no predicate yields `null`. -/
theorem c9_is_complete_witness :
    MockRule.isComplete (some (fun n => decide (2 ≤ n))) 3
      = CompletionResult.bool true ∧
    MockRule.isComplete none 5 = CompletionResult.null := by
  constructor
  · exact (c9_is_complete (some (fun n => decide (2 ≤ n))) 3).2
      (fun n => decide (2 ≤ n)) rfl
  · exact (c9_is_complete none 5).1 rfl

/-- Counterexample to C9 as stated: with no completion predicate configured
the code returns `null` (the source's `return null`), which is not the
JavaScript value `undefined` the claim promises. -/
theorem c9_counterexample :
    MockRule.isComplete none 0 = CompletionResult.null ∧
    CompletionResult.null ≠ CompletionResult.undefined := by
  constructor
  · rfl
  · decide

/-! ## Rejection mirroring theorem -/

/-- Claim C10: when the upstream rejection carries no status code and no
status message, the downstream socket receives a response starting with the
status line `HTTP/1.1 500 Unknown error`; the body is written only while the
socket is still writable (nothing at all is written when it is not writable
at the start); and the socket is destroyed afterwards in every case. -/
theorem c10_mirror_rejection (w1 w2 : Bool) (hs : List (String × String))
    (b : String) :
    (w1 = true →
        mirrorRejection w1 w2 none none hs b
          = SocketOp.write ("HTTP/1.1 500 Unknown error\x0d\x0a" ++
              (String.intercalate "\x0d\x0a" (hs.map (fun h => h.1 ++ ": " ++ h.2)) ++
               "\x0d\x0a\x0d\x0a"))
            :: ((if w2 then [SocketOp.write b] else []) ++ [SocketOp.destroy])) ∧
    (∀ statusCode statusMessage, w2 = false →
        mirrorRejection w1 w2 statusCode statusMessage hs b
          = (if w1 then
               [SocketOp.write (rawResponse (jsOrNat statusCode 500)
                   (jsOrString statusMessage "Unknown error") hs)]
             else []) ++ [SocketOp.destroy]) ∧
    (w1 = false → ∀ statusCode statusMessage,
        mirrorRejection w1 w2 statusCode statusMessage hs b = [SocketOp.destroy]) ∧
    (∀ statusCode statusMessage,
        (mirrorRejection w1 w2 statusCode statusMessage hs b).getLast?
          = some SocketOp.destroy) := by
  refine ⟨?_, ?_, ?_, ?_⟩
  · rintro rfl
    cases w2 <;> rfl
  · rintro statusCode statusMessage rfl
    cases w1 <;> rfl
  · rintro rfl statusCode statusMessage
    rfl
  · intro statusCode statusMessage
    cases w1 <;> cases w2 <;> rfl

/-- Witness for C10: a writable socket, upstream response with absent status
fields, one header and body `oops`, with the socket no longer writable after
the body read: only the synthesized 500 response is written, then destroy. -/
theorem c10_mirror_rejection_witness :
    mirrorRejection true false none none [("X-Err", "1")] "oops"
      = [SocketOp.write (rawResponse 500 "Unknown error" [("X-Err", "1")]),
         SocketOp.destroy] :=
  (c10_mirror_rejection true false [("X-Err", "1")] "oops").2.1 none none rfl

end Mockttp
